import Mathlib

/-!
Shallow embedding of the data-logger admin panel front-end, restricted to
the parts the specification's testable properties speak about:

* the axios-based auth-aware client (`src/utils/api.ts`): request
  interceptor attaching the bearer token, response interceptor performing
  the one-shot refresh-and-retry protocol, and `handleApiError`;
* the Next.js middleware route gate;
* the per-page fetch normalizers and submit handlers (users, roles,
  companies, devices).

Network effects are modelled with a scripted server: a list of
`ServerResponse`s consumed in order, one per wire request.  The interceptor
is a fuel-indexed recursive dispatcher (`send`), because the code's refresh
call goes through the same client and can recurse.
-/

namespace AdminPanel

/-- JS `a || b` on an optional string: `undefined` and `""` are falsy. -/
def jsOrStr (a : Option String) (b : String) : String :=
  match a with
  | some s => if s = "" then b else s
  | none => b

/-- JS `a || b` coalescing of two possibly-undefined strings
(`""` is falsy and falls through to `b`). -/
def jsCoalesceStr (a b : Option String) : Option String :=
  match a with
  | some s => if s = "" then b else some s
  | none => b

/-- JS `a || b` coalescing of two possibly-undefined numbers (`0` is falsy). -/
def jsCoalesceInt (a b : Option Int) : Option Int :=
  match a with
  | some n => if n = 0 then b else some n
  | none => b

/-- JS `a || b` coalescing where only `undefined`/`null` is falsy
(objects, including `{}`, are truthy). -/
def jsCoalesceObj {α : Type} (a b : Option α) : Option α :=
  match a with
  | some x => some x
  | none => b

/-- JS truthiness test for an optional string (`undefined` and `""` falsy). -/
def jsTruthyStr (a : Option String) : Bool :=
  match a with
  | some s => ¬ (s = "")
  | none => false

/-! ## The auth-aware client (`src/utils/api.ts`) -/

/-- The two session cookies (`js-cookie` storage).  `none` = cookie absent. -/
structure Cookies where
  accessToken : Option String
  refreshToken : Option String
deriving DecidableEq, Repr

/-- Browser-visible client state: the cookie jar plus whether
`window.location.href = '/login'` has been executed. -/
structure ClientState where
  cookies : Cookies
  redirectedToLogin : Bool
deriving DecidableEq, Repr

/-- A request as it leaves the client, after the request interceptor ran. -/
structure WireRequest where
  url : String
  body : String
  auth : Option String
deriving DecidableEq, Repr

/-- An axios request config, with the `_retry` marker the response
interceptor stamps on a request it has already retried, and the
`Authorization` header the refresh path patches onto the original config. -/
structure RequestConfig where
  url : String
  body : String
  authOverride : Option String
  retryFlag : Bool
deriving DecidableEq, Repr

/-- A response body: either the token pair `/auth/refresh` answers with,
or opaque data. -/
inductive RespBody where
  | tokens (accessToken : String) (refreshToken : String)
  | data (s : String)
deriving DecidableEq, Repr

/-- `response.data.accessToken` of a refresh response (absent on other bodies). -/
def RespBody.getAccess : RespBody → Option String
  | .tokens a _ => some a
  | .data _ => none

/-- `response.data.refreshToken` of a refresh response. -/
def RespBody.getRefresh : RespBody → Option String
  | .tokens _ r => some r
  | .data _ => none

/-- One scripted server reaction: a success (2xx) body, or an axios error
carrying an optional HTTP status and optional body (`none` status = network
error, no response at all). -/
inductive ServerResponse where
  | ok (body : RespBody)
  | err (status : Option Nat) (body : Option RespBody)
deriving DecidableEq, Repr

/-- What a client call settles to. -/
inductive ClientError where
  | http (status : Option Nat) (body : Option RespBody)
  | noRefreshToken
  | exhausted
deriving DecidableEq, Repr

/-- The promise outcome delivered to the caller of the client. -/
inductive Outcome where
  | success (body : RespBody)
  | failure (e : ClientError)
deriving DecidableEq, Repr

/-- Consume the next scripted response; an empty script acts as a network
error. -/
def scriptStep : List ServerResponse → ServerResponse × List ServerResponse
  | [] => (.err none none, [])
  | r :: rest => (r, rest)

/-- The request interceptor: read the `accessToken` cookie and, if present,
overwrite the `Authorization` header with `Bearer <token>`; otherwise any
header already on the config stands. -/
def wireAuth (st : ClientState) (cfg : RequestConfig) : Option String :=
  match st.cookies.accessToken with
  | some t => some ("Bearer " ++ t)
  | none => cfg.authOverride

/-- The refresh endpoint path. -/
def refreshUrl : String := "/auth/refresh"

/-- Result of dispatching one client call: the settled outcome, the client
state afterwards, the rest of the server script, and the wire requests
actually sent (in order). -/
structure SendResult where
  outcome : Outcome
  state : ClientState
  script : List ServerResponse
  log : List WireRequest
deriving DecidableEq, Repr

/-- `send fuel st script cfg` dispatches one request through the client:
request interceptor, scripted server, then the response interceptor of
`api.interceptors.response.use`.  On a 401 of a not-yet-retried request it
marks the config retried, reads the refresh cookie (throwing the
`No refresh token available` error into the catch when absent), posts
`/auth/refresh` through the same client, stores the returned token pair,
patches the original config's auth header and resubmits it; any failure of
the refresh path clears both cookies, redirects to `/login` and rejects
with the refresh error.  `fuel` bounds the recursion the same-client
refresh makes possible. -/
def send : Nat → ClientState → List ServerResponse → RequestConfig → SendResult
  | 0, st, script, _ => ⟨.failure .exhausted, st, script, []⟩
  | fuel + 1, st, script, cfg =>
    let wire : WireRequest := ⟨cfg.url, cfg.body, wireAuth st cfg⟩
    let (resp, script') := scriptStep script
    match resp with
    | .ok b => ⟨.success b, st, script', [wire]⟩
    | .err status errBody =>
      if status = some 401 ∧ cfg.retryFlag = false then
        -- originalRequest._retry = true
        match st.cookies.refreshToken with
        | none =>
          -- throw new Error('No refresh token available'), caught below:
          -- clear both cookies, redirect, reject with that error
          ⟨.failure .noRefreshToken, ⟨⟨none, none⟩, true⟩, script', [wire]⟩
        | some rt =>
          let refreshCfg : RequestConfig := ⟨refreshUrl, rt, none, false⟩
          let r1 := send fuel st script' refreshCfg
          match r1.outcome with
          | .success rb =>
            -- Cookies.set for both tokens, patch the header, retry
            let st2 : ClientState :=
              ⟨⟨rb.getAccess, rb.getRefresh⟩, r1.state.redirectedToLogin⟩
            let retryCfg : RequestConfig :=
              ⟨cfg.url, cfg.body, (rb.getAccess).map (fun a => "Bearer " ++ a),
                true⟩
            let r2 := send fuel st2 r1.script retryCfg
            ⟨r2.outcome, r2.state, r2.script, wire :: r1.log ++ r2.log⟩
          | .failure e =>
            ⟨.failure e, ⟨⟨none, none⟩, true⟩, r1.script, wire :: r1.log⟩
      else
        ⟨.failure (.http status errBody), st, script', [wire]⟩

/-! ## `handleApiError` (`src/utils/api.ts`) -/

/-- `response.data` of an axios error: an object whose `message` property may
be absent. -/
structure ErrorResponseData where
  message : Option String
deriving DecidableEq, Repr

/-- `error.response` of an axios error: `data` may itself be absent. -/
structure ErrorResponse where
  data : Option ErrorResponseData
deriving DecidableEq, Repr

/-- Any value reaching `handleApiError`: either an axios error (with its
possibly-absent `response`) or any other thrown/rejected value. -/
inductive ApiErrorValue where
  | axiosError (response : Option ErrorResponse)
  | nonAxios
deriving DecidableEq, Repr

/-- `handleApiError`: for an axios error return
`error.response?.data?.message || 'An error occurred'` (JS `||`, so an empty
message also falls back); anything else yields
`'An unexpected error occurred'`. -/
def handleApiError : ApiErrorValue → String
  | .axiosError response =>
    jsOrStr (response.bind fun r => r.data.bind fun d => d.message)
      "An error occurred"
  | .nonAxios => "An unexpected error occurred"

/-- The input to `handleApiError` is an axios error whose
`response.data.message` is the string `m`. -/
def carriesMessage (v : ApiErrorValue) (m : String) : Prop :=
  ∃ resp d, v = .axiosError (some resp) ∧ resp.data = some d ∧
    d.message = some m

instance (v : ApiErrorValue) (m : String) : Decidable (carriesMessage v m) := by
  unfold carriesMessage
  rcases v with resp | _
  · rcases resp with _ | resp
    · exact .isFalse (by simp)
    · rcases resp with ⟨_ | d⟩
      · exact .isFalse (by simp)
      · rcases d with ⟨_ | msg⟩
        · exact .isFalse (by simp)
        · exact decidable_of_iff (msg = m) (by simp)
  · exact .isFalse (by simp)

/-! ## List-fetch normalization on the resource pages -/

/-- A user record as the server may send it, with the snake_case/camelCase
duality the users page coalesces over (`src/pages/users`, `fetchUsers`). -/
structure RawUser where
  id : Option String
  mongoId : Option String
  email : Option String
  first_name : Option String
  firstName : Option String
  last_name : Option String
  lastName : Option String
  role : Option String
  status : Option String
  company_id : Option String
  companyId : Option String
  created_at : Option String
  createdAt : Option String
  updated_at : Option String
  updatedAt : Option String
deriving DecidableEq, Repr

/-- The canonical camelCase user shape held in the page state. -/
structure NormalizedUser where
  id : Option String
  email : Option String
  firstName : Option String
  lastName : Option String
  role : Option String
  status : Option String
  companyId : Option String
  createdAt : Option String
  updatedAt : Option String
deriving DecidableEq, Repr

/-- The per-element mapping of `fetchUsers`: `user.id || user._id`,
`user.first_name || user.firstName`, etc.  (`mongoId` stands for the
source's `_id` property.) -/
def mapRawUser (u : RawUser) : NormalizedUser :=
  { id := jsCoalesceStr u.id u.mongoId
    email := u.email
    firstName := jsCoalesceStr u.first_name u.firstName
    lastName := jsCoalesceStr u.last_name u.lastName
    role := u.role
    status := u.status
    companyId := jsCoalesceStr u.company_id u.companyId
    createdAt := jsCoalesceStr u.created_at u.createdAt
    updatedAt := jsCoalesceStr u.updated_at u.updatedAt }

/-- The body of a successful list response: the `{ success, data }` envelope
(whose `data` may be absent or not an array, hence the inner `Option`) or a
bare array. -/
inductive ListBody (α : Type) where
  | envelope (success : Bool) (data : Option (List α))
  | bare (data : List α)
deriving DecidableEq, Repr

/-- `fetchUsers` (users page): requires `response.data.success` truthy and
`response.data.data` an array, then maps each element; anything else —
including a bare array, whose `success` property is undefined — throws. -/
def fetchUsersNormalize : ListBody RawUser → Except String (List NormalizedUser)
  | .envelope true (some arr) => .ok (arr.map mapRawUser)
  | _ => .error "Invalid response format: expected success and data array"

/-- A permission set of the role matrix (`view/create/edit/delete`). -/
structure PermissionSet where
  view : Bool
  create : Bool
  edit : Bool
  delete : Bool
deriving DecidableEq, Repr

/-- The nine-leaf permission matrix of a role. -/
structure RolePermissions where
  devices : PermissionSet
  companies : PermissionSet
  users : PermissionSet
deriving DecidableEq, Repr

/-- A role as the roles page holds it. -/
structure Role where
  id : String
  name : String
  description : String
  permissions : RolePermissions
deriving DecidableEq, Repr

/-- `fetchRoles` (roles page): same envelope requirement as `fetchUsers`,
and the `data` array is stored unchanged. -/
def fetchRolesNormalize : ListBody Role → Except String (List Role)
  | .envelope true (some arr) => .ok arr
  | _ => .error "Invalid response format: expected success and data array"

/-- A company as the server sends it. -/
structure RawCompany where
  id : String
  name : String
  address : Option String
  contactPerson : Option String
  status : Option String
deriving DecidableEq, Repr

/-- The `{ id, name }` shape the users page keeps for its company dropdown. -/
structure CompanyOption where
  id : String
  name : String
deriving DecidableEq, Repr

/-- `fetchCompanies` on the users page: requires the body to be a bare array
(an envelope throws `Invalid companies response format`) and keeps only
`id`/`name` of each element. -/
def usersPageFetchCompanies :
    ListBody RawCompany → Except String (List CompanyOption)
  | .bare arr => .ok (arr.map fun c => ⟨c.id, c.name⟩)
  | .envelope _ _ => .error "Invalid companies response format"

/-- `fetchCompanies` on the companies page stores `response.data` as the
rows untouched; the page state is a company collection exactly when the body
was a bare array (an envelope object is not a row list). -/
def companiesPageRows : ListBody RawCompany → Option (List RawCompany)
  | .bare arr => some arr
  | .envelope _ _ => none

/-- A device row of the devices page (`type` is spelled `ty`). -/
structure Device where
  id : String
  ty : String
  status : String
  location : String
  physical_address : String
  company_id : String
  push_interval : Int
  enabled : Bool
  created_at : String
  updated_at : String
deriving DecidableEq, Repr

/-- `fetchDevices` on the devices page stores `response.data` as the rows
untouched, like the companies page. -/
def devicesPageRows : ListBody Device → Option (List Device)
  | .bare arr => some arr
  | .envelope _ _ => none

/-! ## Users page submit handler (`onSubmit`) -/

/-- The validated form data the users dialog submits. -/
structure UserFormData where
  email : String
  firstName : String
  lastName : String
  role : String
  status : String
  companyId : String
  password : Option String
deriving DecidableEq, Repr

/-- What one users-page submission does. -/
inductive UsersSubmitAction where
  | put (url : String) (payload : UserFormData)
  | post (url : String) (payload : UserFormData)
  | errorNoRequest (message : String)
deriving DecidableEq, Repr

/-- `onSubmit` of the users page: with a selected user, PUT the form data,
deleting the `password` field when it is JS-falsy (absent or empty);
otherwise a POST, refused with an error message when the password is
missing. -/
def usersOnSubmit (selectedUser : Option String) (data : UserFormData) :
    UsersSubmitAction :=
  match selectedUser with
  | some uid =>
    let updateData :=
      if jsTruthyStr data.password then data else { data with password := none }
    .put ("/users/" ++ uid) updateData
  | none =>
    if jsTruthyStr data.password then .post "/users" data
    else .errorNoRequest "Password is required for new users"

/-! ## Device edit page (`src/pages/devices/[id].tsx`) -/

/-- A JSON-record payload schema, as a finite map. -/
def PayloadSchema : Type := List (String × String)

instance : DecidableEq PayloadSchema := by
  unfold PayloadSchema
  infer_instance

/-- A device as `GET /devices/:id` may send it, with both spellings of the
coalesced fields (`type` is spelled `ty`). -/
structure RawDevice where
  ty : Option String
  company_id : Option String
  companyId : Option String
  status : Option String
  location : Option String
  physical_address : Option String
  physicalAddress : Option String
  payload_schema : Option PayloadSchema
  payloadSchema : Option PayloadSchema
  push_interval : Option Int
  pushInterval : Option Int
  enabled : Option Bool
deriving DecidableEq

/-- The form data `fetchDevice` resets the edit form to (fields the raw
response lacked stay undefined). -/
structure DeviceFormData where
  ty : Option String
  company_id : Option String
  status : Option String
  location : Option String
  physical_address : Option String
  payload_schema : Option PayloadSchema
  push_interval : Option Int
  enabled : Option Bool
deriving DecidableEq

/-- The normalization inside `fetchDevice`: coalesce each snake_case field
with its camelCase twin using JS `||`. -/
def fetchDeviceNormalize (d : RawDevice) : DeviceFormData :=
  { ty := d.ty
    company_id := jsCoalesceStr d.company_id d.companyId
    status := d.status
    location := d.location
    physical_address := jsCoalesceStr d.physical_address d.physicalAddress
    payload_schema := jsCoalesceObj d.payload_schema d.payloadSchema
    push_interval := jsCoalesceInt d.push_interval d.pushInterval
    enabled := d.enabled }

/-- The device data after `deviceSchema` validation (all defaults applied). -/
structure ValidatedDevice where
  ty : String
  company_id : String
  status : String
  location : String
  physical_address : String
  payload_schema : PayloadSchema
  push_interval : Int
  enabled : Bool
deriving DecidableEq

/-- `z.string().min(lo).max(hi)`: undefined fails, a string passes when its
length is within bounds. -/
def zStringMinMax (lo hi : Nat) : Option String → Option String
  | none => none
  | some s => if lo ≤ s.length ∧ s.length ≤ hi then some s else none

/-- `z.string().min(lo)` with no upper bound. -/
def zStringMin (lo : Nat) : Option String → Option String
  | none => none
  | some s => if lo ≤ s.length then some s else none

/-- `z.enum(['online','offline','maintenance']).default('offline')`. -/
def zEnumStatus : Option String → Option String
  | none => some "offline"
  | some s =>
    if s = "online" ∨ s = "offline" ∨ s = "maintenance" then some s else none

/-- `z.record(z.unknown()).default({})`: any record passes, undefined
becomes the empty record. -/
def zRecordDefaultEmpty : Option PayloadSchema → Option PayloadSchema
  | none => some []
  | some ps => some ps

/-- `z.number().int().positive().default(60)` (integers by construction
here). -/
def zIntPositiveDefault60 : Option Int → Option Int
  | none => some 60
  | some n => if 0 < n then some n else none

/-- `z.boolean().default(true)`. -/
def zBoolDefaultTrue : Option Bool → Option Bool
  | none => some true
  | some b => some b

/-- The whole `deviceSchema` parse: every field validated, `none` = the
submission is blocked by a validation error. -/
def deviceSchemaParse (d : DeviceFormData) : Option ValidatedDevice := do
  let ty ← zStringMinMax 2 50 d.ty
  let cid ← zStringMin 1 d.company_id
  let st ← zEnumStatus d.status
  let loc ← zStringMinMax 2 255 d.location
  let pa ← zStringMinMax 5 1000 d.physical_address
  let ps ← zRecordDefaultEmpty d.payload_schema
  let pi ← zIntPositiveDefault60 d.push_interval
  let en ← zBoolDefaultTrue d.enabled
  pure ⟨ty, cid, st, loc, pa, ps, pi, en⟩

/-- What the edit-device page submit does. -/
inductive DevicesSubmitAction where
  | put (url : String) (payload : ValidatedDevice)
deriving DecidableEq

/-- `onSubmit` of the edit-device page: PUT the validated form data to
`/devices/:id` unchanged. -/
def editDeviceOnSubmit (id : String) (data : ValidatedDevice) :
    DevicesSubmitAction :=
  .put ("/devices/" ++ id) data

/-! ## Route gate (Next.js middleware) and dashboard guard -/

/-- What the middleware answers a navigation with. -/
inductive MiddlewareResult where
  | next
  | redirectLogin
deriving DecidableEq, Repr

/-- JS `pathname.startsWith(pre)`. -/
def strStartsWith (p pre : String) : Bool :=
  pre.toList.isPrefixOf p.toList

/-- JS `pathname.includes('.')` specialised to one character. -/
def strContainsChar (p : String) (c : Char) : Bool :=
  p.toList.contains c

/-- The request-time middleware: pass through `/login`, `/api/*`, `/_next*`
and any path containing a dot (assets); otherwise redirect to `/login`
unless the `accessToken` cookie is present and non-empty (its value is
never inspected further). -/
def middleware (pathname : String) (accessToken : Option String) :
    MiddlewareResult :=
  if pathname = "/login" ∨ strStartsWith pathname "/api/" then .next
  else if strStartsWith pathname "/_next" ∨ strContainsChar pathname '.' then
    .next
  else if jsTruthyStr accessToken then .next
  else .redirectLogin

/-- The dashboard mount effect's own guard: `router.replace('/login')`
exactly when the `accessToken` cookie is JS-falsy. -/
def dashboardMountRedirects (accessToken : Option String) : Bool :=
  ! jsTruthyStr accessToken

/-! ## Devices page delete handler -/

/-- A request the devices page can issue while deleting. -/
inductive DevicesPageCall where
  | delete (url : String)
  | get (url : String)
deriving DecidableEq, Repr

/-- Observable result of one `handleDelete` run on the devices page. -/
structure HandleDeleteResult where
  calls : List DevicesPageCall
  devices : List Device
  error : Option String
deriving DecidableEq

/-- `handleDelete` of the devices page: ask `confirm(...)`; on decline do
nothing; on confirm issue the DELETE and, when it succeeds, replace the
in-memory list by `devices.filter(device => device.id !== id)` and clear the
error banner; on failure keep the list and show the extracted message. -/
def devicesHandleDelete (confirmed : Bool) (deleteSucceeds : Bool)
    (deleteError : ApiErrorValue) (prevError : Option String)
    (devices : List Device) (id : String) : HandleDeleteResult :=
  if confirmed then
    if deleteSucceeds then
      ⟨[.delete ("/devices/" ++ id)], devices.filter (fun d => d.id != id),
        none⟩
    else
      ⟨[.delete ("/devices/" ++ id)], devices,
        some (handleApiError deleteError)⟩
  else ⟨[], devices, prevError⟩

/-- Number of wire requests in a log that hit a given URL. -/
def countUrl (u : String) (log : List WireRequest) : Nat :=
  (log.filter (fun w => w.url = u)).length

/-- Number of calls to the token-refresh endpoint in a log. -/
def countRefreshCalls (log : List WireRequest) : Nat :=
  countUrl refreshUrl log

/-- C1: the claim as stated is false when the refresh request itself receives
a 401: because the refresh posts through the same client, its own 401 is
intercepted in turn and triggers a further refresh.  With a refresh token
stored, a 401 on the original request followed by a 401 on the refresh call
yields three hits on the token-refresh endpoint, not one. -/
theorem c1_counterexample_refresh_401_recursion :
    countRefreshCalls (send 6 ⟨⟨some "acc", some "rt"⟩, false⟩
      [.err (some 401) none, .err (some 401) none, .ok (.tokens "a2" "r2"),
       .ok (.tokens "a3" "r3"), .ok (.data "payload")]
      ⟨"/users", "", none, false⟩).log = 3 ∧
    countRefreshCalls (send 6 ⟨⟨some "acc", some "rt"⟩, false⟩
      [.err (some 401) none, .err (some 401) none, .ok (.tokens "a2" "r2"),
       .ok (.tokens "a3" "r3"), .ok (.data "payload")]
      ⟨"/users", "", none, false⟩).log ≠ 1 := by
  constructor <;> decide

/-- C1 (amended): for any request to a non-refresh URL that receives a 401
while a refresh token is stored, if the refresh call itself gets a non-401
answer (here: a success), the client issues exactly one call to the
token-refresh endpoint and exactly one resubmission of the original request,
whatever response the resubmission receives. -/
theorem single_refresh_single_retry (k : Nat) (u b : String)
    (acc : Option String) (rt : String) (rd : Bool) (a r : String)
    (b401 : Option RespBody) (resp : ServerResponse) (hu : u ≠ refreshUrl) :
    countRefreshCalls (send (k + 2) ⟨⟨acc, some rt⟩, rd⟩
      [.err (some 401) b401, .ok (.tokens a r), resp]
      ⟨u, b, none, false⟩).log = 1 ∧
    countUrl u (send (k + 2) ⟨⟨acc, some rt⟩, rd⟩
      [.err (some 401) b401, .ok (.tokens a r), resp]
      ⟨u, b, none, false⟩).log = 2 ∧
    (send (k + 2) ⟨⟨acc, some rt⟩, rd⟩
      [.err (some 401) b401, .ok (.tokens a r), resp]
      ⟨u, b, none, false⟩).log.length = 3 := by
  have hu' : ¬ (refreshUrl = u) := fun h => hu h.symm
  rcases resp with rb | ⟨s, eb⟩ <;>
    simp [send, scriptStep, countRefreshCalls, countUrl, RespBody.getAccess,
      RespBody.getRefresh, hu, hu', List.filter]

/-- Witness for `single_refresh_single_retry` at a concrete input. -/
theorem single_refresh_single_retry_witness :
    ("/users" : String) ≠ refreshUrl ∧
    (countRefreshCalls (send 2 ⟨⟨some "acc", some "rt"⟩, false⟩
      [.err (some 401) none, .ok (.tokens "a2" "r2"), .ok (.data "d")]
      ⟨"/users", "", none, false⟩).log = 1 ∧
     countUrl "/users" (send 2 ⟨⟨some "acc", some "rt"⟩, false⟩
      [.err (some 401) none, .ok (.tokens "a2" "r2"), .ok (.data "d")]
      ⟨"/users", "", none, false⟩).log = 2 ∧
     (send 2 ⟨⟨some "acc", some "rt"⟩, false⟩
      [.err (some 401) none, .ok (.tokens "a2" "r2"), .ok (.data "d")]
      ⟨"/users", "", none, false⟩).log.length = 3) :=
  ⟨by decide,
   single_refresh_single_retry 0 "/users" "" (some "acc") "rt" false "a2" "r2"
     none (.ok (.data "d")) (by decide)⟩

/-- C4: the claim as stated is false at a server response whose `message`
field is the empty string: the field is present, yet JS `||` treats `""` as
falsy and `handleApiError` returns the fallback instead of the (empty)
server-provided message. -/
theorem c4_counterexample_empty_message :
    carriesMessage (.axiosError (some ⟨some ⟨some ""⟩⟩)) "" ∧
    handleApiError (.axiosError (some ⟨some ⟨some ""⟩⟩)) = "An error occurred" ∧
    handleApiError (.axiosError (some ⟨some ⟨some ""⟩⟩)) ≠ "" := by
  refine ⟨⟨⟨some ⟨some ""⟩⟩, ⟨some ""⟩, rfl, rfl, rfl⟩, by decide, by decide⟩

/-- C4 (amended): `handleApiError` is total; it returns the server-provided
message whenever the input is an axios error carrying a structured response
with a non-empty `message` field, and otherwise one of the two fixed
fallback strings (`An error occurred` for axios errors without a truthy
message, `An unexpected error occurred` for everything else). -/
theorem handleApiError_message_or_fixed_fallback (v : ApiErrorValue) :
    (∀ m, carriesMessage v m → m ≠ "" → handleApiError v = m) ∧
    ((¬ ∃ m, carriesMessage v m ∧ m ≠ "") →
      handleApiError v = "An error occurred" ∨
      handleApiError v = "An unexpected error occurred") := by
  constructor
  · rintro m ⟨resp, d, rfl, hd, hm⟩ hne
    simp [handleApiError, hd, hm, jsOrStr, hne]
  · intro hno
    rcases v with resp | _
    · left
      rcases resp with _ | ⟨_ | ⟨_ | msg⟩⟩
      · rfl
      · rfl
      · rfl
      · by_cases hmsg : msg = ""
        · simp [handleApiError, jsOrStr, hmsg]
        · exact absurd ⟨msg, ⟨_, _, rfl, rfl, rfl⟩, hmsg⟩ hno
    · right; rfl

/-- Witness for `handleApiError_message_or_fixed_fallback` at a concrete
axios error carrying the message `boom`. -/
theorem handleApiError_message_or_fixed_fallback_witness :
    carriesMessage (.axiosError (some ⟨some ⟨some "boom"⟩⟩)) "boom" ∧
    ("boom" : String) ≠ "" ∧
    handleApiError (.axiosError (some ⟨some ⟨some "boom"⟩⟩)) = "boom" :=
  ⟨by decide, by decide,
   (handleApiError_message_or_fixed_fallback
     (.axiosError (some ⟨some ⟨some "boom"⟩⟩))).1 "boom" (by decide)
     (by decide)⟩

/-- C2: when the token-refresh call fails (any non-401 error, including a
network error with no status), both stored token cookies are removed, the
application is redirected to `/login`, the original caller's promise is
rejected with the refresh error, and the original request is never
resubmitted. -/
theorem refresh_failure_clears_tokens_and_stops (k : Nat) (u b : String)
    (acc : Option String) (rt : String) (rd : Bool) (s : Option Nat)
    (eb b401 : Option RespBody) (hs : s ≠ some 401) (hu : u ≠ refreshUrl) :
    (send (k + 2) ⟨⟨acc, some rt⟩, rd⟩ [.err (some 401) b401, .err s eb]
      ⟨u, b, none, false⟩).outcome = .failure (.http s eb) ∧
    (send (k + 2) ⟨⟨acc, some rt⟩, rd⟩ [.err (some 401) b401, .err s eb]
      ⟨u, b, none, false⟩).state.cookies = ⟨none, none⟩ ∧
    (send (k + 2) ⟨⟨acc, some rt⟩, rd⟩ [.err (some 401) b401, .err s eb]
      ⟨u, b, none, false⟩).state.redirectedToLogin = true ∧
    countUrl u (send (k + 2) ⟨⟨acc, some rt⟩, rd⟩
      [.err (some 401) b401, .err s eb] ⟨u, b, none, false⟩).log = 1 := by
  have hu' : ¬ (refreshUrl = u) := fun h => hu h.symm
  simp [send, scriptStep, countUrl, hs, hu, hu', List.filter]

/-- Witness for `refresh_failure_clears_tokens_and_stops`: refresh answers
500. -/
theorem refresh_failure_clears_tokens_and_stops_witness :
    (some 500 : Option Nat) ≠ some 401 ∧ ("/users" : String) ≠ refreshUrl ∧
    ((send 2 ⟨⟨some "acc", some "rt"⟩, false⟩
      [.err (some 401) none, .err (some 500) (some (.data "boom"))]
      ⟨"/users", "", none, false⟩).outcome
        = .failure (.http (some 500) (some (.data "boom"))) ∧
     (send 2 ⟨⟨some "acc", some "rt"⟩, false⟩
      [.err (some 401) none, .err (some 500) (some (.data "boom"))]
      ⟨"/users", "", none, false⟩).state.cookies = ⟨none, none⟩ ∧
     (send 2 ⟨⟨some "acc", some "rt"⟩, false⟩
      [.err (some 401) none, .err (some 500) (some (.data "boom"))]
      ⟨"/users", "", none, false⟩).state.redirectedToLogin = true ∧
     countUrl "/users" (send 2 ⟨⟨some "acc", some "rt"⟩, false⟩
      [.err (some 401) none, .err (some 500) (some (.data "boom"))]
      ⟨"/users", "", none, false⟩).log = 1) :=
  ⟨by decide, by decide,
   refresh_failure_clears_tokens_and_stops 0 "/users" "" (some "acc") "rt"
     false (some 500) (some (.data "boom")) none (by decide) (by decide)⟩

/-- C3: a 401 arriving while no refresh token is stored makes no call to the
token-refresh endpoint; the request fails immediately (with the synthesized
no-refresh-token error), no resubmission happens, and the stored access
token is cleared. -/
theorem no_refresh_token_means_no_refresh_call (k : Nat) (u b : String)
    (acc : Option String) (rd : Bool) (eb : Option RespBody)
    (hu : u ≠ refreshUrl) :
    countRefreshCalls (send (k + 1) ⟨⟨acc, none⟩, rd⟩ [.err (some 401) eb]
      ⟨u, b, none, false⟩).log = 0 ∧
    (send (k + 1) ⟨⟨acc, none⟩, rd⟩ [.err (some 401) eb]
      ⟨u, b, none, false⟩).log.length = 1 ∧
    (send (k + 1) ⟨⟨acc, none⟩, rd⟩ [.err (some 401) eb]
      ⟨u, b, none, false⟩).outcome = .failure .noRefreshToken ∧
    (send (k + 1) ⟨⟨acc, none⟩, rd⟩ [.err (some 401) eb]
      ⟨u, b, none, false⟩).state.cookies.accessToken = none := by
  have hu' : ¬ (refreshUrl = u) := fun h => hu h.symm
  simp [send, scriptStep, countRefreshCalls, countUrl, hu, hu', List.filter]

/-- Witness for `no_refresh_token_means_no_refresh_call`. -/
theorem no_refresh_token_means_no_refresh_call_witness :
    ("/users" : String) ≠ refreshUrl ∧
    (countRefreshCalls (send 1 ⟨⟨some "acc", none⟩, false⟩
      [.err (some 401) none] ⟨"/users", "", none, false⟩).log = 0 ∧
     (send 1 ⟨⟨some "acc", none⟩, false⟩ [.err (some 401) none]
      ⟨"/users", "", none, false⟩).log.length = 1 ∧
     (send 1 ⟨⟨some "acc", none⟩, false⟩ [.err (some 401) none]
      ⟨"/users", "", none, false⟩).outcome = .failure .noRefreshToken ∧
     (send 1 ⟨⟨some "acc", none⟩, false⟩ [.err (some 401) none]
      ⟨"/users", "", none, false⟩).state.cookies.accessToken = none) :=
  ⟨by decide,
   no_refresh_token_means_no_refresh_call 0 "/users" "" (some "acc") false
     none (by decide)⟩

/-- C10: whenever the 401 branch is taken and the refresh path fails — the
refresh call erring (non-401) or no refresh token being stored at all —
both cookies are removed, the application is redirected to `/login`, and the
caller's promise rejects with the refresh-path error (the synthesized
no-refresh-token error in the missing-token case), never with the original
401 response error. -/
theorem refresh_path_failure_always_clears_and_redirects (k : Nat)
    (u b : String) (acc acc' : Option String) (rt : String) (rd rd' : Bool)
    (s : Option Nat) (eb b401 b401' : Option RespBody)
    (hs : s ≠ some 401) :
    ((send (k + 1) ⟨⟨acc, none⟩, rd⟩ [.err (some 401) b401]
        ⟨u, b, none, false⟩).outcome = .failure .noRefreshToken ∧
     (send (k + 1) ⟨⟨acc, none⟩, rd⟩ [.err (some 401) b401]
        ⟨u, b, none, false⟩).outcome ≠ .failure (.http (some 401) b401) ∧
     (send (k + 1) ⟨⟨acc, none⟩, rd⟩ [.err (some 401) b401]
        ⟨u, b, none, false⟩).state.cookies = ⟨none, none⟩ ∧
     (send (k + 1) ⟨⟨acc, none⟩, rd⟩ [.err (some 401) b401]
        ⟨u, b, none, false⟩).state.redirectedToLogin = true) ∧
    ((send (k + 2) ⟨⟨acc', some rt⟩, rd'⟩ [.err (some 401) b401', .err s eb]
        ⟨u, b, none, false⟩).outcome = .failure (.http s eb) ∧
     (send (k + 2) ⟨⟨acc', some rt⟩, rd'⟩ [.err (some 401) b401', .err s eb]
        ⟨u, b, none, false⟩).outcome ≠ .failure (.http (some 401) b401') ∧
     (send (k + 2) ⟨⟨acc', some rt⟩, rd'⟩ [.err (some 401) b401', .err s eb]
        ⟨u, b, none, false⟩).state.cookies = ⟨none, none⟩ ∧
     (send (k + 2) ⟨⟨acc', some rt⟩, rd'⟩ [.err (some 401) b401', .err s eb]
        ⟨u, b, none, false⟩).state.redirectedToLogin = true) := by
  simp [send, scriptStep, hs, ClientError.http.injEq]

/-- Witness for `refresh_path_failure_always_clears_and_redirects`. -/
theorem refresh_path_failure_always_clears_and_redirects_witness :
    (some 500 : Option Nat) ≠ some 401 ∧
    (((send 1 ⟨⟨some "acc", none⟩, false⟩ [.err (some 401) none]
        ⟨"/users", "", none, false⟩).outcome = .failure .noRefreshToken ∧
      (send 1 ⟨⟨some "acc", none⟩, false⟩ [.err (some 401) none]
        ⟨"/users", "", none, false⟩).outcome
          ≠ .failure (.http (some 401) none) ∧
      (send 1 ⟨⟨some "acc", none⟩, false⟩ [.err (some 401) none]
        ⟨"/users", "", none, false⟩).state.cookies = ⟨none, none⟩ ∧
      (send 1 ⟨⟨some "acc", none⟩, false⟩ [.err (some 401) none]
        ⟨"/users", "", none, false⟩).state.redirectedToLogin = true) ∧
     ((send 2 ⟨⟨some "a2", some "rt"⟩, true⟩ [.err (some 401) none,
          .err (some 500) none] ⟨"/users", "", none, false⟩).outcome
        = .failure (.http (some 500) none) ∧
      (send 2 ⟨⟨some "a2", some "rt"⟩, true⟩ [.err (some 401) none,
          .err (some 500) none] ⟨"/users", "", none, false⟩).outcome
        ≠ .failure (.http (some 401) none) ∧
      (send 2 ⟨⟨some "a2", some "rt"⟩, true⟩ [.err (some 401) none,
          .err (some 500) none] ⟨"/users", "", none, false⟩).state.cookies
        = ⟨none, none⟩ ∧
      (send 2 ⟨⟨some "a2", some "rt"⟩, true⟩ [.err (some 401) none,
          .err (some 500) none]
        ⟨"/users", "", none, false⟩).state.redirectedToLogin = true)) :=
  ⟨by decide,
   refresh_path_failure_always_clears_and_redirects 0 "/users" ""
     (some "acc") (some "a2") "rt" false true (some 500) none none none
     (by decide)⟩

/-- C5: the claim as stated is false: the users-page normalization does not
tolerate a bare-array body — `response.data.success` is undefined on an
array, so `fetchUsers` throws its invalid-format error instead of producing
the collection. -/
theorem c5_counterexample_users_rejects_bare_array :
    fetchUsersNormalize (.bare [⟨some "1", none, some "a@b.com", some "Jo",
      none, some "Doe", none, some "admin", some "active", some "c1", none,
      none, none, none, none⟩]) =
      .error "Invalid response format: expected success and data array" := by
  rfl

/-- C5 (amended): each list fetcher accepts exactly the one body shape its
endpoint uses, not both: the users and roles fetchers require the
`{ success, data }` envelope and throw on a bare array; the users-page
companies fetcher requires a bare array and throws on an envelope; the
companies- and devices-page fetchers store the body as-is, which is the row
collection exactly when the body is a bare array. -/
theorem list_fetch_one_shape_each (users : List RawUser) (roles : List Role)
    (cos : List RawCompany) (devs : List Device) (s s' : Bool)
    (dCos : Option (List RawCompany)) (dDevs : Option (List Device)) :
    fetchUsersNormalize (.envelope true (some users))
      = .ok (users.map mapRawUser) ∧
    fetchUsersNormalize (.bare users)
      = .error "Invalid response format: expected success and data array" ∧
    fetchRolesNormalize (.envelope true (some roles)) = .ok roles ∧
    fetchRolesNormalize (.bare roles)
      = .error "Invalid response format: expected success and data array" ∧
    usersPageFetchCompanies (.bare cos)
      = .ok (cos.map fun c => ⟨c.id, c.name⟩) ∧
    usersPageFetchCompanies (.envelope s dCos)
      = .error "Invalid companies response format" ∧
    companiesPageRows (.bare cos) = some cos ∧
    companiesPageRows (.envelope s dCos) = none ∧
    devicesPageRows (.bare devs) = some devs ∧
    devicesPageRows (.envelope s' dDevs) = none := by
  simp [fetchUsersNormalize, fetchRolesNormalize, usersPageFetchCompanies,
    companiesPageRows, devicesPageRows]

/-- C6: on the users page, an update submission with a JS-blank (absent or
empty) password sends a PUT whose payload carries every other form field
unchanged and no password field; a create submission with a blank password
issues no request and surfaces an error message, while a non-blank password
makes the POST with the full form data. -/
theorem usersOnSubmit_password_policy (uid : String) (d d' : UserFormData)
    (hblank : jsTruthyStr d.password = false)
    (hfull : jsTruthyStr d'.password = true) :
    usersOnSubmit (some uid) d
      = .put ("/users/" ++ uid) { d with password := none } ∧
    usersOnSubmit none d
      = .errorNoRequest "Password is required for new users" ∧
    usersOnSubmit none d' = .post "/users" d' := by
  simp [usersOnSubmit, hblank, hfull]

/-- Witness for `usersOnSubmit_password_policy`: an empty-string password on
one form, `secret12` on the other. -/
theorem usersOnSubmit_password_policy_witness :
    jsTruthyStr (some "") = false ∧ jsTruthyStr (some "secret12") = true ∧
    (usersOnSubmit (some "u1")
        ⟨"a@b.com", "Jo", "Doe", "admin", "active", "c1", some ""⟩
      = .put "/users/u1"
        ⟨"a@b.com", "Jo", "Doe", "admin", "active", "c1", none⟩ ∧
     usersOnSubmit none ⟨"a@b.com", "Jo", "Doe", "admin", "active", "c1", some ""⟩
      = .errorNoRequest "Password is required for new users" ∧
     usersOnSubmit none
        ⟨"a@b.com", "Jo", "Doe", "admin", "active", "c1", some "secret12"⟩
      = .post "/users"
        ⟨"a@b.com", "Jo", "Doe", "admin", "active", "c1", some "secret12"⟩) :=
  ⟨by decide, by decide,
   usersOnSubmit_password_policy "u1"
     ⟨"a@b.com", "Jo", "Doe", "admin", "active", "c1", some ""⟩
     ⟨"a@b.com", "Jo", "Doe", "admin", "active", "c1", some "secret12"⟩
     (by decide) (by decide)⟩

lemma zStringMinMax_some {lo hi : Nat} {o : Option String} {s : String}
    (h : zStringMinMax lo hi o = some s) : o = some s := by
  cases o with
  | none => simp [zStringMinMax] at h
  | some t =>
    simp only [zStringMinMax] at h
    split at h
    · exact h
    · simp at h

lemma zStringMin_some {lo : Nat} {o : Option String} {s : String}
    (h : zStringMin lo o = some s) : o = some s := by
  cases o with
  | none => simp [zStringMin] at h
  | some t =>
    simp only [zStringMin] at h
    split at h
    · exact h
    · simp at h

lemma zEnumStatus_of_some {t s : String} (h : zEnumStatus (some t) = some s) :
    s = t := by
  simp only [zEnumStatus] at h
  split at h
  · exact (Option.some.inj h).symm
  · simp at h

lemma zIntPositive_of_some {n m : Int}
    (h : zIntPositiveDefault60 (some n) = some m) : m = n := by
  simp only [zIntPositiveDefault60] at h
  split at h
  · exact (Option.some.inj h).symm
  · simp at h

/-- C7: submitting the device edit form pre-populated by `fetchDevice` with
unchanged values yields a PUT whose payload is exactly the validated form
data; that payload agrees field-for-field with the normalized fetch output
wherever the fetch produced a value (the required string fields are always
present in a successfully validated form).  On the users page, resubmitting
the six fields `handleEdit` populates produces a PUT payload equal to them
field-for-field with the blank password omitted. -/
theorem edit_form_roundtrip (raw : RawDevice) (v : ValidatedDevice)
    (id uid email firstName lastName role status companyId : String)
    (h : deviceSchemaParse (fetchDeviceNormalize raw) = some v) :
    editDeviceOnSubmit id v = .put ("/devices/" ++ id) v ∧
    (fetchDeviceNormalize raw).ty = some v.ty ∧
    (fetchDeviceNormalize raw).company_id = some v.company_id ∧
    (fetchDeviceNormalize raw).location = some v.location ∧
    (fetchDeviceNormalize raw).physical_address = some v.physical_address ∧
    (∀ s, (fetchDeviceNormalize raw).status = some s → v.status = s) ∧
    (∀ ps, (fetchDeviceNormalize raw).payload_schema = some ps →
      v.payload_schema = ps) ∧
    (∀ n, (fetchDeviceNormalize raw).push_interval = some n →
      v.push_interval = n) ∧
    (∀ b, (fetchDeviceNormalize raw).enabled = some b → v.enabled = b) ∧
    usersOnSubmit (some uid)
        ⟨email, firstName, lastName, role, status, companyId, none⟩
      = .put ("/users/" ++ uid)
        ⟨email, firstName, lastName, role, status, companyId, none⟩ := by
  simp only [deviceSchemaParse, Option.pure_def, Option.bind_eq_bind,
    Option.bind_eq_some, Option.some.injEq] at h
  obtain ⟨ty, hty, cid, hcid, st, hst, loc, hloc, pa, hpa, ps, hps, pi, hpi,
    en, hen, hv⟩ := h
  subst hv
  refine ⟨rfl, zStringMinMax_some hty, zStringMin_some hcid,
    zStringMinMax_some hloc, zStringMinMax_some hpa, ?_, ?_, ?_, ?_, ?_⟩
  · intro s hs
    rw [hs] at hst
    exact zEnumStatus_of_some hst
  · intro qs hqs
    rw [hqs] at hps
    exact (Option.some.inj hps).symm
  · intro n hn
    rw [hn] at hpi
    exact zIntPositive_of_some hpi
  · intro b hb
    rw [hb] at hen
    exact (Option.some.inj hen).symm
  · simp [usersOnSubmit, jsTruthyStr]

/-- Witness for `edit_form_roundtrip` at a fully populated raw device. -/
theorem edit_form_roundtrip_witness :
    deviceSchemaParse (fetchDeviceNormalize
      ⟨some "sensor", some "c1", none, some "online", some "lab",
        some "12 Main St", none, some [], none, some 60, none, some true⟩)
      = some ⟨"sensor", "c1", "online", "lab", "12 Main St", [], 60, true⟩ ∧
    (editDeviceOnSubmit "d1"
        ⟨"sensor", "c1", "online", "lab", "12 Main St", [], 60, true⟩
      = .put "/devices/d1"
        ⟨"sensor", "c1", "online", "lab", "12 Main St", [], 60, true⟩ ∧
     (fetchDeviceNormalize
        ⟨some "sensor", some "c1", none, some "online", some "lab",
          some "12 Main St", none, some [], none, some 60, none,
          some true⟩).ty = some "sensor") :=
  ⟨by decide,
   ⟨(edit_form_roundtrip
       ⟨some "sensor", some "c1", none, some "online", some "lab",
         some "12 Main St", none, some [], none, some 60, none, some true⟩
       ⟨"sensor", "c1", "online", "lab", "12 Main St", [], 60, true⟩
       "d1" "u1" "a@b.com" "Jo" "Doe" "admin" "active" "c1" (by decide)).1,
    (edit_form_roundtrip
       ⟨some "sensor", some "c1", none, some "online", some "lab",
         some "12 Main St", none, some [], none, some 60, none, some true⟩
       ⟨"sensor", "c1", "online", "lab", "12 Main St", [], 60, true⟩
       "d1" "u1" "a@b.com" "Jo" "Doe" "admin" "active" "c1" (by decide)).2.1⟩⟩

/-- C8: any navigation to a protected path — not `/login`, not under
`/api/`, not a `/_next` or dotted asset path — is redirected to `/login`
when the access-token cookie is absent, while any non-empty token value
passes the gate unexamined; the dashboard's own mount guard likewise
redirects when no token is stored. -/
theorem middleware_protects_pages (p t : String) (hlogin : p ≠ "/login")
    (hapi : strStartsWith p "/api/" = false)
    (hnext : strStartsWith p "/_next" = false)
    (hdot : strContainsChar p '.' = false) (ht : t ≠ "") :
    middleware p none = .redirectLogin ∧
    middleware p (some t) = .next ∧
    dashboardMountRedirects none = true := by
  simp [middleware, dashboardMountRedirects, jsTruthyStr, hlogin, hapi,
    hnext, hdot, ht]

/-- Witness for `middleware_protects_pages` at `/dashboard` and an arbitrary
unvalidated token value. -/
theorem middleware_protects_pages_witness :
    ("/dashboard" : String) ≠ "/login" ∧
    strStartsWith "/dashboard" "/api/" = false ∧
    strStartsWith "/dashboard" "/_next" = false ∧
    strContainsChar "/dashboard" '.' = false ∧
    ("garbage-token" : String) ≠ "" ∧
    (middleware "/dashboard" none = .redirectLogin ∧
     middleware "/dashboard" (some "garbage-token") = .next ∧
     dashboardMountRedirects none = true) :=
  ⟨by decide, by decide, by decide, by decide, by decide,
   middleware_protects_pages "/dashboard" "garbage-token" (by decide)
     (by decide) (by decide) (by decide) (by decide)⟩

/-- C9: on the devices page a declined confirmation issues no request and
leaves the list and the error banner untouched; a confirmed, successful
delete issues exactly the one DELETE call and replaces the rendered list by
the previous list with precisely the entries of that id removed — a pure
in-memory filter, with no fetch (no reload) involved. -/
theorem devicesHandleDelete_confirm_and_filter (devices : List Device)
    (id : String) (prevError : Option String) (e : ApiErrorValue)
    (b : Bool) :
    devicesHandleDelete false b e prevError devices id
      = ⟨[], devices, prevError⟩ ∧
    (devicesHandleDelete true true e prevError devices id).calls
      = [.delete ("/devices/" ++ id)] ∧
    (devicesHandleDelete true true e prevError devices id).devices
      = devices.filter (fun d => d.id != id) ∧
    (∀ d, d ∈ (devicesHandleDelete true true e prevError devices id).devices
      ↔ d ∈ devices ∧ d.id ≠ id) ∧
    (∀ u, DevicesPageCall.get u
      ∉ (devicesHandleDelete true true e prevError devices id).calls) := by
  refine ⟨rfl, rfl, rfl, ?_, ?_⟩
  · intro d
    simp [devicesHandleDelete, List.mem_filter]
  · intro u
    simp [devicesHandleDelete]

end AdminPanel
